import Mathlib

/-!
Verification development for the nvtop snapshot fork: a shallow embedding of
`src/extract_gpuinfo_intel_xe.c` (Intel Xe fdinfo parser, delta cache, dynamic
memory-info refresh) and the snapshot/export and main-loop logic of
`src/nvtop.c`, with theorems checking the natural-language specification
against the code.

Machine integers are modelled as `Nat` with explicit reduction `% 2^64`
(`uint64_t` / `unsigned long`) or `% 2^32` (`unsigned`) at every operation
where the C code can wrap.
-/

namespace NvtopXe

/-- Modulus of 64-bit unsigned arithmetic (`uint64_t`, LP64 `unsigned long`). -/
def M64 : Nat := 2 ^ 64

/-- Modulus of 32-bit unsigned arithmetic (C `unsigned`). -/
def M32 : Nat := 2 ^ 32

/-- Modelled from the spec: an "optional field" is a numeric metric paired with
an explicit populated flag (the `GPUINFO_*_FIELD_VALID` / `SET_GPUINFO_*`
bit-flag pattern of `extract_gpuinfo_common.h`, whose header is outside
`src/`).  `val` holds whatever the underlying struct member holds, which is
meaningful only when `valid` is `true`. -/
structure OptField where
  val : Nat
  valid : Bool
deriving Repr, DecidableEq

/-- An unpopulated field; `calloc`-style zero value with the valid bit clear. -/
def OptField.unset : OptField := ⟨0, false⟩

/-- `SET_GPUINFO_*(info, field, v)`: store the value and set the valid bit. -/
def OptField.setv (v : Nat) : OptField := ⟨v, true⟩

/-- One `struct drm_xe_mem_region` as far as the refresh uses it:
`isVram` stands for `mem_class == DRM_XE_MEM_REGION_CLASS_VRAM`,
`total_size` and `used` are the two `uint64_t` counters read by the code. -/
structure MemRegion where
  isVram : Bool
  total_size : Nat
  used : Nat
deriving Repr, DecidableEq

/-- The subset of `struct gpuinfo_dynamic_info` touched by the Xe backend and
the snapshot printer: optional memory fields plus the optional device fields
the JSON export formats. -/
structure DynamicInfo where
  gpu_clock_speed : OptField
  gpu_temp : OptField
  fan_rpm : OptField
  power_draw : OptField
  total_memory : OptField
  used_memory : OptField
  free_memory : OptField
  mem_util_rate : OptField
deriving Repr, DecidableEq

/-- A dynamic-info record with every field unpopulated. -/
def DynamicInfo.blank : DynamicInfo :=
  ⟨.unset, .unset, .unset, .unset, .unset, .unset, .unset, .unset⟩

/-- The region-selection loop of `gpuinfo_intel_xe_refresh_dynamic_info`
(lines 86–99): walk the regions in order and stop at the first one whose
`mem_class` is VRAM, or at the first region at all when the device reported
exactly one region (`regions->num_mem_regions == 1`); `n` is that fixed
total count. -/
def selectRegion (n : Nat) : List MemRegion → Option MemRegion
  | [] => none
  | r :: rs => if r.isVram || n == 1 then some r else selectRegion n rs

/-- The body executed for the selected region (lines 90–96): always populate
`total_memory`; populate `used_memory`, `free_memory` and `mem_util_rate` only
when the kernel-reported `used` is non-zero.  `free_memory` is the wrapping
64-bit difference `total - used`; `mem_util_rate` is `used * 100 / total` in
64-bit arithmetic truncated into the 32-bit `mem_util_rate` member. -/
def applyRegion (d : DynamicInfo) (r : MemRegion) : DynamicInfo :=
  let d1 := { d with total_memory := OptField.setv (r.total_size % M64) }
  if r.used % M64 ≠ 0 then
    let d2 := { d1 with used_memory := OptField.setv (r.used % M64) }
    let d3 := { d2 with
      free_memory :=
        OptField.setv ((d2.total_memory.val + M64 - d2.used_memory.val) % M64) }
    { d3 with
      mem_util_rate :=
        OptField.setv ((d3.used_memory.val * 100 % M64 / d3.total_memory.val) % M32) }
  else d1

/-- `gpuinfo_intel_xe_refresh_dynamic_info` (lines 77–103).  `cardFdOk` is the
`gpu_info->card_fd` guard; `query` is the outcome of
`xe_device_query_alloc_fetch` — `none` when either ioctl phase or the
allocation fails, `some regions` on success.  On any failure the dynamic info
is returned untouched. -/
def refresh_dynamic_info (cardFdOk : Bool) (query : Option (List MemRegion))
    (d : DynamicInfo) : DynamicInfo :=
  if cardFdOk then
    match query with
    | none => d
    | some regions =>
      match selectRegion regions.length regions with
      | none => d
      | some r => applyRegion d r
  else d

/-- One field of the hand-rolled snapshot JSON object of `nvtop.c`
(lines 315–361): `strF` is a plain quoted string, `numF` a value printed as a
quoted decimal string (the raw byte counts), `unitF` a value printed as a
quoted decimal string with a unit suffix (`"<value><unit>"`, e.g. `"42%"`,
`"300MHz"`), and `nullF` a field printed as `null`. -/
inductive JsonField where
  | strF (name value : String)
  | numF (name : String) (value : Nat)
  | unitF (name : String) (value : Nat) (unit : String)
  | nullF (name : String)
deriving Repr, DecidableEq

/-- The per-process utilization record (`struct gpu_process`) as far as the Xe
backend and the export touch it: pid, the type bitmask, and the optional
fields; `gpu_usage`, `decode_usage`, `encode_usage` and `mem_util_rate` live
in 32-bit members, `gpu_memory_usage` and `gpu_cycles` in 64-bit members. -/
structure GpuProcess where
  pid : Nat
  ptype : Nat
  gpu_memory_usage : OptField
  gpu_cycles : OptField
  gpu_usage : OptField
  decode_usage : OptField
  encode_usage : OptField
deriving Repr, DecidableEq

/-- The `total_usage` accumulation of `nvtop.c` lines 306–311: sum the
`gpu_usage` field of every process whose field is valid, in C `unsigned`
(32-bit wrapping) arithmetic. -/
def totalUsageRaw (ps : List GpuProcess) : Nat :=
  ps.foldl (fun acc p => if p.gpu_usage.valid then (acc + p.gpu_usage.val) % M32 else acc) 0

/-- The clamp of line 312: `if (total_usage > 100) total_usage = 100`. -/
def deviceGpuUtil (ps : List GpuProcess) : Nat :=
  let t := totalUsageRaw ps
  if t > 100 then 100 else t

/-- Specification-side sum of the valid `gpu_usage` fields (unbounded `Nat`). -/
def validUsageSum : List GpuProcess → Nat
  | [] => 0
  | p :: ps => (if p.gpu_usage.valid then p.gpu_usage.val else 0) + validUsageSum ps

/-- The memory tail of the device JSON object (`nvtop.c` lines 353–359): the
code tests only `total_memory`'s validity flag; when it is set it prints all
three of `mem_total`, `mem_used`, `mem_free` from the stored values, else it
prints `mem_total: null` alone. -/
def memoryJsonFields (d : DynamicInfo) : List JsonField :=
  if d.total_memory.valid then
    [.numF "mem_total" d.total_memory.val,
     .numF "mem_used" d.used_memory.val,
     .numF "mem_free" d.free_memory.val]
  else
    [.nullF "mem_total"]

/-- One device's JSON object as the snapshot printer emits it
(`nvtop.c` lines 315–361), in source order. -/
def deviceJsonFields (name : String) (d : DynamicInfo) (ps : List GpuProcess) :
    List JsonField :=
  [JsonField.strF "device_name" name,
   if d.gpu_clock_speed.valid then .unitF "gpu_clock" d.gpu_clock_speed.val "MHz"
     else .nullF "gpu_clock",
   if d.gpu_temp.valid then .unitF "temp" d.gpu_temp.val "C" else .nullF "temp",
   if d.fan_rpm.valid then .unitF "fan_speed" d.fan_rpm.val "RPM" else .nullF "fan_speed",
   if d.power_draw.valid then .unitF "power_draw" (d.power_draw.val / 1000) "W"
     else .nullF "power_draw",
   JsonField.unitF "gpu_util" (deviceGpuUtil ps) "%",
   if d.mem_util_rate.valid then .unitF "mem_util" d.mem_util_rate.val "%"
     else .nullF "mem_util"]
  ++ memoryJsonFields d

/-! The fdinfo parser `parse_drm_fdinfo_intel_xe` (lines 130–259). -/

/-- The five Xe engine classes, in the index order of `cycles_keys` /
`total_cycles_keys` and of `union intel_cycles`'s array. -/
inductive Engine where
  | rcs | vcs | vecs | bcs | ccs
deriving Repr, DecidableEq, Fintype

/-- The index order of the engine arrays (`cycles_keys[0..4]`). -/
def engines : List Engine := [.rcs, .vcs, .vecs, .bcs, .ccs]

/-- `union intel_cycles`: one `uint64_t` counter per engine class. -/
structure IntelCycles where
  rcs : Nat
  vcs : Nat
  vecs : Nat
  bcs : Nat
  ccs : Nat
deriving Repr, DecidableEq

/-- The all-zero counter array (`{.array = {0}}`). -/
def IntelCycles.zero : IntelCycles := ⟨0, 0, 0, 0, 0⟩

/-- Read the slot of one engine. -/
def IntelCycles.get (c : IntelCycles) : Engine → Nat
  | .rcs => c.rcs
  | .vcs => c.vcs
  | .vecs => c.vecs
  | .bcs => c.bcs
  | .ccs => c.ccs

/-- Overwrite the slot of one engine. -/
def IntelCycles.setE (c : IntelCycles) : Engine → Nat → IntelCycles
  | .rcs, v => { c with rcs := v }
  | .vcs, v => { c with vcs := v }
  | .vecs, v => { c with vecs := v }
  | .bcs, v => { c with bcs := v }
  | .ccs, v => { c with ccs := v }

/-- The `cycles_sum` bookkeeping of lines 175–179: the five 64-bit counters
added with wraparound. -/
def IntelCycles.wrapSum (c : IntelCycles) : Nat :=
  (c.rcs + c.vcs + c.vecs + c.bcs + c.ccs) % M64

/-- The `drm-cycles-*` key of an engine (`cycles_keys`). -/
def cyclesKey : Engine → String
  | .rcs => "drm-cycles-rcs"
  | .vcs => "drm-cycles-vcs"
  | .vecs => "drm-cycles-vecs"
  | .bcs => "drm-cycles-bcs"
  | .ccs => "drm-cycles-ccs"

/-- The `drm-total-cycles-*` key of an engine (`total_cycles_keys`). -/
def totalCyclesKey : Engine → String
  | .rcs => "drm-total-cycles-rcs"
  | .vcs => "drm-total-cycles-vcs"
  | .vecs => "drm-total-cycles-vecs"
  | .bcs => "drm-total-cycles-bcs"
  | .ccs => "drm-total-cycles-ccs"

/-- Modelled from the spec: a tokenized fdinfo line.  The tokenizer
`extract_drm_fdinfo_key_value` lives outside `src/`; per the spec it splits a
line into a key string and a value string and the parser skips lines that do
not match the shape, so a record reaches the parser as the list of its
key/value pairs. -/
structure KV where
  key : String
  val : String
deriving Repr, DecidableEq

/-- Value/remainder of the maximal leading decimal-digit run of a character
list, the core of `strtoul`/`strtoull` in base 10. -/
def splitDigits : Nat → List Char → Nat × List Char
  | acc, [] => (acc, [])
  | acc, c :: cs =>
    if c.isDigit then splitDigits (acc * 10 + (c.toNat - 48)) cs else (acc, c :: cs)

/-- `strtoul(val, NULL, 10)` on an LP64 system: parse the leading digit run
(empty run yields 0) and clamp to `ULONG_MAX` on overflow. -/
def strtoulClamp (s : String) : Nat :=
  min (splitDigits 0 s.toList).1 (M64 - 1)

/-- `strtoul(val, &endptr, 10)` followed by the `if (*endptr) continue;`
check of line 153: the parse is accepted only when the digit run exhausts the
whole value string (an empty string parses as 0 with `*endptr == 0`). -/
def strtoulEnd (s : String) : Option Nat :=
  let p := splitDigits 0 s.toList
  if p.2.isEmpty then some (min p.1 (M64 - 1)) else none

/-- The mutable locals of the parsing loop of lines 136–172, together with the
caller-supplied process record that the loop updates in place. -/
structure ParseState where
  client_id_set : Bool
  cid : Nat
  gpu_cycles : IntelCycles
  total_cycles : IntelCycles
  process : GpuProcess
deriving Repr, DecidableEq

/-- The loop state at entry of the parser for process record `p`. -/
def initState (p : GpuProcess) : ParseState :=
  { client_id_set := false, cid := 0, gpu_cycles := .zero, total_cycles := .zero,
    process := p }

/-- The engine-cycles dispatch of lines 163–169: for every engine whose key
matches the line's key, overwrite that slot with `strtoull` of the value. -/
def updateByKey (c : IntelCycles) (l : KV) (keyOf : Engine → String) : IntelCycles :=
  engines.foldl (fun acc e => if l.key == keyOf e then acc.setE e (strtoulClamp l.val) else acc) c

/-- One iteration of the parsing loop (lines 143–172) on an extracted
key/value pair; `none` models the `return false` on a `drm-pdev` value that
mismatches the owning device. -/
def parseLine (pdev : String) (st : ParseState) (l : KV) : Option ParseState :=
  if l.key == "drm-pdev" then
    if l.val == pdev then some st else none
  else if l.key == "drm-client-id" then
    match strtoulEnd l.val with
    | none => some st
    | some v => some { st with cid := v % M32, client_id_set := true }
  else if l.key == "drm-total-vram0" then
    let mem := strtoulClamp l.val
    let f := st.process.gpu_memory_usage
    let newVal := if f.valid then (f.val + mem * 1024) % M64 else mem * 1024 % M64
    some { st with process := { st.process with gpu_memory_usage := OptField.setv newVal } }
  else
    some { st with
      gpu_cycles := updateByKey st.gpu_cycles l cyclesKey,
      total_cycles := updateByKey st.total_cycles l totalCyclesKey }

/-- The whole parsing loop: `false` in the first component models the early
`return false` of the device-identity mismatch; the state carries whatever
updates had been applied up to that point. -/
def parseLines (pdev : String) (st : ParseState) : List KV → Bool × ParseState
  | [] => (true, st)
  | l :: ls =>
    match parseLine pdev st l with
    | none => (false, st)
    | some st' => parseLines pdev st' ls

/-- `struct unique_cache_id`: the composite cache key (client id, pid, device
identity). -/
structure UniqueId where
  client_id : Nat
  pid : Nat
  pdev : String
deriving Repr, DecidableEq

/-- `struct intel_process_info_cache`: key plus the last-seen raw counter
sample. -/
structure CacheEntry where
  client_id : UniqueId
  gpu_cycles : IntelCycles
  total_cycles : IntelCycles
deriving Repr, DecidableEq

/-- A cache generation, as the association list of its entries
(`uthash`-indexed in the C code). -/
abbrev Cache := List CacheEntry

/-- `HASH_FIND_CLIENT`: look a key up in one generation. -/
def findClient (cache : Cache) (k : UniqueId) : Option CacheEntry :=
  List.find? (fun e => decide (e.client_id = k)) cache

/-- `HASH_DEL`: remove the (first) entry with the given key. -/
def removeClient (cache : Cache) (k : UniqueId) : Cache :=
  List.eraseP (fun e => decide (e.client_id = k)) cache

/-- `HASH_ADD_CLIENT`: append an entry to a generation. -/
def addClient (cache : Cache) (e : CacheEntry) : Cache :=
  cache ++ [e]

/-- Number of entries of a generation carrying a given key. -/
def countClient (cache : Cache) (k : UniqueId) : Nat :=
  List.length (List.filter (fun e => decide (e.client_id = k)) cache)

/-- `gpu_process_graphical` of the process-type bitmask. -/
def gpu_process_graphical : Nat := 1

/-- `gpu_process_compute` of the process-type bitmask. -/
def gpu_process_compute : Nat := 2

/-- The wrapping 64-bit difference `sample - cached` of the `ADD_USAGE`
macro. -/
def usageDelta (sample cached : Nat) : Nat := (sample + M64 - cached % M64) % M64

/-- One `ADD_USAGE(engine, field)` expansion (lines 204–212): with
`d`/`td` the wrapping busy/total deltas, when `td > 0` add
`d * 100 / td` (64-bit multiply and divide, truncated into the 32-bit
`unsigned u`) onto the 32-bit target field and set its valid bit; when
`td == 0` leave the field alone (no division happens). -/
def addUsage (g t cg ct : Nat) (f : OptField) : OptField :=
  let d := usageDelta g cg
  let td := usageDelta t ct
  if td > 0 then OptField.setv ((f.val + d * 100 % M64 / td % M32) % M32) else f

/-- The cache-hit block of lines 195–235: force the three utilization fields
to valid 0, then apply the seven `ADD_USAGE` calls in source order
(rcs→gpu, ccs→gpu, vcs→decode, vcs→gpu, vecs→encode, vecs→gpu, bcs→gpu). -/
def applyDeltas (ce : CacheEntry) (g t : IntelCycles) (p : GpuProcess) : GpuProcess :=
  let p0 := { p with gpu_usage := OptField.setv 0, decode_usage := OptField.setv 0,
                     encode_usage := OptField.setv 0 }
  let p1 := { p0 with gpu_usage := addUsage g.rcs t.rcs ce.gpu_cycles.rcs ce.total_cycles.rcs p0.gpu_usage }
  let p2 := { p1 with gpu_usage := addUsage g.ccs t.ccs ce.gpu_cycles.ccs ce.total_cycles.ccs p1.gpu_usage }
  let p3 := { p2 with decode_usage := addUsage g.vcs t.vcs ce.gpu_cycles.vcs ce.total_cycles.vcs p2.decode_usage }
  let p4 := { p3 with gpu_usage := addUsage g.vcs t.vcs ce.gpu_cycles.vcs ce.total_cycles.vcs p3.gpu_usage }
  let p5 := { p4 with encode_usage := addUsage g.vecs t.vecs ce.gpu_cycles.vecs ce.total_cycles.vecs p4.encode_usage }
  let p6 := { p5 with gpu_usage := addUsage g.vecs t.vecs ce.gpu_cycles.vecs ce.total_cycles.vecs p5.gpu_usage }
  { p6 with gpu_usage := addUsage g.bcs t.bcs ce.gpu_cycles.bcs ce.total_cycles.bcs p6.gpu_usage }

/-- The per-device state the parser reads and writes: the device identity and
the two cache generations. -/
structure GpuState where
  pdev : String
  lastCache : Cache
  currentCache : Cache
deriving Repr, DecidableEq

/-- The outcome of one `parse_drm_fdinfo_intel_xe` call: the C return value,
the (possibly updated) caller-supplied process record, the updated device
state, and whether the `NDEBUG`-guarded duplicate lookup of lines 246–250
found the key already present in the current generation (i.e. whether the
debug assertion would fire). -/
structure ParseOutcome where
  ok : Bool
  process : GpuProcess
  gstate : GpuState
  dupDetected : Bool
deriving Repr, DecidableEq

/-- `parse_drm_fdinfo_intel_xe` (lines 130–259), assuming the `calloc` of a
fresh cache entry succeeds. -/
def parse_drm_fdinfo_intel_xe (g : GpuState) (rec : List KV) (p : GpuProcess) :
    ParseOutcome :=
  let res := parseLines g.pdev (initState p) rec
  if res.1 = false then
    { ok := false, process := res.2.process, gstate := g, dupDetected := false }
  else
    let st := res.2
    let p1 := { st.process with gpu_cycles := OptField.setv st.gpu_cycles.wrapSum }
    if st.client_id_set = false then
      { ok := false, process := p1, gstate := g, dupDetected := false }
    else
      let pt := Nat.lor (if st.gpu_cycles.rcs ≠ 0 then gpu_process_graphical else 0)
        (if st.gpu_cycles.ccs ≠ 0 then gpu_process_compute else 0)
      let p2 := { p1 with ptype := pt }
      let ucid : UniqueId := ⟨st.cid, p.pid, g.pdev⟩
      match findClient g.lastCache ucid with
      | some ce =>
        let p3 := applyDeltas ce st.gpu_cycles st.total_cycles p2
        let newEntry : CacheEntry :=
          { client_id := ce.client_id, gpu_cycles := st.gpu_cycles,
            total_cycles := st.total_cycles }
        { ok := true, process := p3,
          gstate := { g with lastCache := removeClient g.lastCache ucid,
                             currentCache := addClient g.currentCache newEntry },
          dupDetected := (findClient g.currentCache ce.client_id).isSome }
      | none =>
        let newEntry : CacheEntry :=
          { client_id := ucid, gpu_cycles := st.gpu_cycles,
            total_cycles := st.total_cycles }
        { ok := true, process := p2,
          gstate := { g with currentCache := addClient g.currentCache newEntry },
          dupDetected := (findClient g.currentCache ucid).isSome }

/-- The key a successfully parsed record is cached under. -/
def recordKey (g : GpuState) (rec : List KV) (p : GpuProcess) : UniqueId :=
  ⟨(parseLines g.pdev (initState p) rec).2.cid, p.pid, g.pdev⟩

/-- The per-pid accumulation of fdinfo records within one cycle: the fdinfo
orchestrator hands every record attributed to a pid to the parser with the
same process record, threading the device state through. -/
def parseMany (g : GpuState) (p : GpuProcess) :
    List (List KV) → GpuState × GpuProcess × Bool
  | [] => (g, p, true)
  | r :: rs =>
    let res := parse_drm_fdinfo_intel_xe g r p
    let rest := parseMany res.gstate res.process rs
    (rest.1, rest.2.1, res.ok && rest.2.2)

/-! The one-shot snapshot path and the main loop of `nvtop.c`. -/

/-- One observable step of the snapshot branch of `main` (lines 274–295):
a device dynamic-info refresh over all monitored GPUs, a process refresh, a
`usleep` of the given number of microseconds, the rate computation
(`gpuinfo_utilisation_rate`), or printing the JSON document. -/
inductive SnapshotEvent where
  | refreshDynamic
  | refreshProcesses
  | sleepMicros (us : Nat)
  | computeRates
  | printOutput
deriving Repr, DecidableEq

/-- The straight-line event sequence of the snapshot branch, transcribed from
`nvtop.c` lines 275–295: warm-up pass, 250 ms sleep, second pass, 1 s sleep,
final pass, rate computation, JSON output. -/
def snapshotTrace : List SnapshotEvent :=
  [.refreshDynamic, .refreshProcesses, .sleepMicros 250000,
   .refreshDynamic, .refreshProcesses, .sleepMicros 1000000,
   .refreshDynamic, .refreshProcesses, .computeRates, .printOutput]

/-- The per-iteration state of the main loop: the accumulated slept time
(the C `double time_slept`, idealized as an exact rational number of
milliseconds) and the `timeout()` value last handed to the input wait. -/
structure LoopState where
  time_slept : ℚ
  timeoutMs : ℤ
deriving Repr, DecidableEq

/-- The state on entry of the loop (`nvtop.c` lines 372–374): the timeout and
the slept budget both start at the configured update interval, so the first
iteration samples immediately. -/
def initLoopState (interval : Nat) : LoopState :=
  { time_slept := interval, timeoutMs := interval }

/-- The outcome of one main-loop iteration: the successor state and whether
this iteration performed a sampling pass. -/
structure StepResult where
  state : LoopState
  sampled : Bool
deriving Repr, DecidableEq

/-- One iteration of the main loop (lines 385–405) as far as pacing goes:
if the accumulated slept time has reached the update interval, sample, reset
the timeout to the full interval and the budget to zero; otherwise only set
the next input-wait timeout to the remaining budget
(`interval - (int)time_slept`, the C double-to-int cast being a floor on the
non-negative budget).  In either case the iteration then blocks in `getch`
for `slept` milliseconds, which is added to the budget. -/
def loopStep (interval : Nat) (st : LoopState) (slept : ℚ) : StepResult :=
  if st.time_slept ≥ interval then
    { state := { time_slept := 0 + slept, timeoutMs := interval }, sampled := true }
  else
    { state := { time_slept := st.time_slept + slept,
                 timeoutMs := interval - ⌊st.time_slept⌋ }, sampled := false }

/-- Run the main loop over a list of observed per-iteration `getch` wait
durations, returning the final state and the number of sampling passes. -/
def runLoop (interval : Nat) (st : LoopState) : List ℚ → LoopState × Nat
  | [] => (st, 0)
  | s :: rest =>
    let r := loopStep interval st s
    let next := runLoop interval r.state rest
    (next.1, (if r.sampled then 1 else 0) + next.2)

/-! Specification-side definitions used to state the claims, and concrete
inputs used by witnesses and counterexamples. -/

/-- The loop-local components of a parse state apart from the process record:
whether a client id was seen, the client id, and the two counter arrays. -/
def ParseState.core (st : ParseState) : Bool × Nat × IntelCycles × IntelCycles :=
  (st.client_id_set, st.cid, st.gpu_cycles, st.total_cycles)

/-- The specification's per-engine percentage: `busy_delta * 100 / total_delta`
(integer, truncating) when `total_delta > 0`, and no contribution (0) when
`total_delta = 0`. -/
def enginePct (ce : CacheEntry) (g t : IntelCycles) (e : Engine) : Nat :=
  let d := g.get e - ce.gpu_cycles.get e
  let td := t.get e - ce.total_cycles.get e
  if 0 < td then d * 100 / td else 0

/-- The effect of one parsed line on the process's memory-usage field, as the
parser's `drm-total-vram0` branch performs it. -/
def memStep (f : OptField) (l : KV) : OptField :=
  if l.key == "drm-total-vram0" then
    if f.valid then OptField.setv ((f.val + strtoulClamp l.val * 1024) % M64)
    else OptField.setv (strtoulClamp l.val * 1024 % M64)
  else f

/-- Specification-side memory contribution of one record: the sum of the
record's memory-key values converted from kilobytes to bytes. -/
def recMemBytes (r : List KV) : Nat :=
  (r.map (fun l => if l.key == "drm-total-vram0" then strtoulClamp l.val * 1024 else 0)).sum

/-- Specification-side memory total over the records of one pid in one cycle. -/
def recsMemBytes (recs : List (List KV)) : Nat := (recs.map recMemBytes).sum

/-- Whether a record carries at least one memory key. -/
def hasVramLine (r : List KV) : Bool := r.any (fun l => l.key == "drm-total-vram0")

/-- A process record with no field populated, as the orchestrator hands it to
the backend at the start of a cycle. -/
def blankProc : GpuProcess := ⟨42, 0, .unset, .unset, .unset, .unset, .unset⟩

/-- A device state with the identity `"0000:00:02.0"` and empty generations. -/
def freshGpu : GpuState := ⟨"0000:00:02.0", [], []⟩

/-- A well-formed fdinfo record for client 7 of device `"0000:00:02.0"`,
first sample of the render engine (spec §8 scenario). -/
def sampleRec1 : List KV :=
  [⟨"drm-pdev", "0000:00:02.0"⟩, ⟨"drm-client-id", "7"⟩,
   ⟨"drm-cycles-rcs", "1000"⟩, ⟨"drm-total-cycles-rcs", "10000"⟩]

/-- The second sample of the same client (spec §8 scenario). -/
def sampleRec2 : List KV :=
  [⟨"drm-pdev", "0000:00:02.0"⟩, ⟨"drm-client-id", "7"⟩,
   ⟨"drm-cycles-rcs", "1500"⟩, ⟨"drm-total-cycles-rcs", "10500"⟩]

/-- The device state after the first cycle swapped generations: the entry for
client 7 sits in the previous generation, the current one is empty. -/
def swappedGpu : GpuState :=
  ⟨"0000:00:02.0",
   (parse_drm_fdinfo_intel_xe freshGpu sampleRec1 blankProc).gstate.currentCache, []⟩

/-- A memory-regions response as a privilege-restricted query returns it: one
system-memory region with a total size but `used == 0`. -/
def privRegions : List MemRegion := [⟨false, 1000, 0⟩]

/-- The dynamic info after a refresh against `privRegions`: `total_memory`
populated, `used_memory`/`free_memory`/`mem_util_rate` not. -/
def privDynamic : DynamicInfo :=
  refresh_dynamic_info true (some privRegions) DynamicInfo.blank

/-- The loop state the parser reaches on `sampleRec2`: client id 7 seen,
render busy/total counters 1500/10500, process record untouched. -/
def wit1St : ParseState :=
  ⟨true, 7, ⟨1500, 0, 0, 0, 0⟩, ⟨10500, 0, 0, 0, 0⟩, blankProc⟩

/-- The cache entry left by the first cycle for client 7: render busy/total
counters 1000/10000. -/
def wit1Ce : CacheEntry :=
  ⟨⟨7, 42, "0000:00:02.0"⟩, ⟨1000, 0, 0, 0, 0⟩, ⟨10000, 0, 0, 0, 0⟩⟩

/-- Two records of one pid within one cycle, with 4 KiB and 6 KiB memory
keys. -/
def wit8Recs : List (List KV) :=
  [[⟨"drm-client-id", "1"⟩, ⟨"drm-total-vram0", "4"⟩],
   [⟨"drm-client-id", "2"⟩, ⟨"drm-total-vram0", "6"⟩]]

/-! Theorems. -/

theorem M64_pos : 0 < M64 := by unfold M64; positivity

/-- C3: when the two-call memory-regions query succeeds and a region is
selected (device-local, or the single region reported), `total_memory` is
always populated; `used_memory`, `free_memory` (= total − used) and
`mem_util_rate` (= used * 100 / total, truncating) are populated exactly when
the kernel reports a non-zero `used`; when either ioctl phase or the
allocation fails (`query = none`), the refresh returns with every dynamic
memory field untouched (and, being a total function, without crashing). -/
theorem xe_dynamic_memory_population (fd : Bool) (d : DynamicInfo)
    (rs : List MemRegion) (r : MemRegion)
    (hsel : selectRegion rs.length rs = some r)
    (hT : r.total_size < M64) (hU : r.used ≤ r.total_size)
    (hO : r.used * 100 < M64) :
    refresh_dynamic_info fd none d = d ∧
    (refresh_dynamic_info true (some rs) d).total_memory = OptField.setv r.total_size ∧
    (r.used ≠ 0 →
      (refresh_dynamic_info true (some rs) d).used_memory = OptField.setv r.used ∧
      (refresh_dynamic_info true (some rs) d).free_memory
        = OptField.setv (r.total_size - r.used) ∧
      (refresh_dynamic_info true (some rs) d).mem_util_rate
        = OptField.setv (r.used * 100 / r.total_size)) ∧
    (r.used = 0 →
      (refresh_dynamic_info true (some rs) d).used_memory = d.used_memory ∧
      (refresh_dynamic_info true (some rs) d).free_memory = d.free_memory ∧
      (refresh_dynamic_info true (some rs) d).mem_util_rate = d.mem_util_rate) := by
  have hre : refresh_dynamic_info true (some rs) d = applyRegion d r := by
    simp [refresh_dynamic_info, hsel]
  have hUM : r.used < M64 := lt_of_le_of_lt hU hT
  have h1 : r.total_size % M64 = r.total_size := Nat.mod_eq_of_lt hT
  have h2 : r.used % M64 = r.used := Nat.mod_eq_of_lt hUM
  refine ⟨by cases fd <;> rfl, ?_, ?_, ?_⟩
  · rw [hre]
    by_cases hz : r.used = 0 <;> simp [applyRegion, h1, h2, hz]
  · intro hz
    have htpos : 0 < r.total_size := by omega
    have hfree : (r.total_size + M64 - r.used) % M64 = r.total_size - r.used := by
      have hsplit : r.total_size + M64 - r.used = M64 + (r.total_size - r.used) := by omega
      rw [hsplit, Nat.add_mod_left]
      exact Nat.mod_eq_of_lt (by omega)
    have hdiv : r.used * 100 / r.total_size ≤ 100 := by
      calc r.used * 100 / r.total_size
          ≤ r.total_size * 100 / r.total_size :=
            Nat.div_le_div_right (Nat.mul_le_mul_right 100 hU)
        _ = 100 := Nat.mul_div_cancel_left 100 htpos
    have hutil : (r.used * 100 % M64 / r.total_size) % M32 = r.used * 100 / r.total_size := by
      rw [Nat.mod_eq_of_lt hO]
      exact Nat.mod_eq_of_lt (lt_of_le_of_lt hdiv (by norm_num [M32]))
    rw [hre]
    simp [applyRegion, OptField.setv, h1, h2, hz, hfree, hutil]
  · intro hz
    rw [hre]
    simp [applyRegion, OptField.setv, h1, h2, hz]

/-- C3 witness: a device-local region of 1000 bytes with 250 used populates
`used_memory` with 250. -/
theorem xe_dynamic_memory_population_witness :
    (refresh_dynamic_info true (some [⟨true, 1000, 250⟩]) DynamicInfo.blank).used_memory
      = OptField.setv 250 :=
  ((xe_dynamic_memory_population true DynamicInfo.blank [⟨true, 1000, 250⟩]
      ⟨true, 1000, 250⟩ (by decide) (by decide) (by decide) (by decide)).2.2.1
    (by decide)).1

/-- C4 counterexample: after a refresh in which the kernel reported
`used == 0` (the privilege-restricted case), `used_memory` and `free_memory`
are unpopulated, yet the snapshot printer — which tests only `total_memory`'s
validity flag — emits `mem_used` and `mem_free` as bare numeric values. -/
theorem export_memory_counterexample :
    privDynamic.used_memory.valid = false ∧
    privDynamic.free_memory.valid = false ∧
    memoryJsonFields privDynamic =
      [.numF "mem_total" 1000, .numF "mem_used" 0, .numF "mem_free" 0] := by
  decide

/-- C4 amended: the exporter guards the memory detail block with
`total_memory`'s validity flag only: when it is set, it prints `mem_total`,
`mem_used` and `mem_free` from the stored field values — including the
used/free values of fields whose own validity flags are unset — and when it
is clear it prints `mem_total: null` alone. -/
theorem export_memory_checks_only_total (d : DynamicInfo) :
    (d.total_memory.valid = true →
      memoryJsonFields d = [.numF "mem_total" d.total_memory.val,
        .numF "mem_used" d.used_memory.val, .numF "mem_free" d.free_memory.val]) ∧
    (d.total_memory.valid = false →
      memoryJsonFields d = [.nullF "mem_total"]) := by
  constructor <;> intro h <;> simp [memoryJsonFields, h]

/-- C4 amended witness: with nothing populated, only `mem_total: null` is
printed. -/
theorem export_memory_checks_only_total_witness :
    memoryJsonFields DynamicInfo.blank = [.nullF "mem_total"] :=
  (export_memory_checks_only_total DynamicInfo.blank).2 rfl

theorem totalUsageRaw_go (ps : List GpuProcess) : ∀ acc : Nat,
    acc + validUsageSum ps < M32 →
    ps.foldl (fun a p => if p.gpu_usage.valid then (a + p.gpu_usage.val) % M32 else a) acc
      = acc + validUsageSum ps := by
  induction ps with
  | nil => intro acc _; simp [validUsageSum]
  | cons p ps ih =>
    intro acc h
    simp only [validUsageSum] at h ⊢
    simp only [List.foldl_cons]
    cases hb : p.gpu_usage.valid
    · simp only [hb, Bool.false_eq_true, if_false] at h ⊢
      rw [ih acc (by omega)]
      omega
    · simp only [hb, if_true] at h ⊢
      have hlt : acc + p.gpu_usage.val < M32 := by omega
      rw [Nat.mod_eq_of_lt hlt, ih (acc + p.gpu_usage.val) (by omega)]
      omega

theorem totalUsageRaw_eq (ps : List GpuProcess) (h : validUsageSum ps < M32) :
    totalUsageRaw ps = validUsageSum ps := by
  have := totalUsageRaw_go ps 0 (by omega)
  simpa [totalUsageRaw] using this

/-- C6: in the device JSON object, the `gpu_util` field (position 5) carries
the sum of the `gpu_usage` fields of the device's processes whose field is
valid, clamped to 100; with zero processes the value is 0 (printed `"0%"`). -/
theorem export_gpu_util (name : String) (d : DynamicInfo) (ps : List GpuProcess)
    (h : validUsageSum ps < M32) :
    (deviceJsonFields name d ps).get? 5
      = some (.unitF "gpu_util" (min (validUsageSum ps) 100) "%") ∧
    deviceGpuUtil [] = 0 := by
  constructor
  · have hmin : deviceGpuUtil ps = min (validUsageSum ps) 100 := by
      simp only [deviceGpuUtil]
      rw [totalUsageRaw_eq ps h]
      split <;> omega
    simp [deviceJsonFields, hmin]
  · rfl

/-- C6 witness: two processes at 60% and 70% plus one with an unset field
clamp to 100; zero processes give 0. -/
theorem export_gpu_util_witness :
    (deviceJsonFields "gpu" DynamicInfo.blank
        [{ blankProc with gpu_usage := ⟨60, true⟩ },
         { blankProc with gpu_usage := ⟨70, true⟩ },
         { blankProc with gpu_usage := ⟨5, false⟩ }]).get? 5
      = some (.unitF "gpu_util"
          (min (validUsageSum
            [{ blankProc with gpu_usage := ⟨60, true⟩ },
             { blankProc with gpu_usage := ⟨70, true⟩ },
             { blankProc with gpu_usage := ⟨5, false⟩ }]) 100) "%") ∧
    deviceGpuUtil [] = 0 :=
  export_gpu_util "gpu" DynamicInfo.blank _ (by decide)

/-- C7: the one-shot export performs exactly three sampling passes, each a
dynamic-info refresh immediately followed by a process refresh; the second
pass is followed by the one-second wait and then the final pass; the rate
computation comes after every refresh, and the printing after the rate
computation. -/
theorem snapshot_three_passes :
    snapshotTrace.count .refreshDynamic = 3 ∧
    snapshotTrace.count .refreshProcesses = 3 ∧
    (∀ i, i < snapshotTrace.length →
      snapshotTrace.get? i = some .refreshDynamic →
      snapshotTrace.get? (i + 1) = some .refreshProcesses) ∧
    snapshotTrace.get? 3 = some .refreshDynamic ∧
    snapshotTrace.get? 4 = some .refreshProcesses ∧
    snapshotTrace.get? 5 = some (.sleepMicros 1000000) ∧
    snapshotTrace.get? 6 = some .refreshDynamic ∧
    snapshotTrace.get? 7 = some .refreshProcesses ∧
    snapshotTrace.get? 8 = some .computeRates ∧
    snapshotTrace.get? 9 = some .printOutput ∧
    snapshotTrace.count .computeRates = 1 ∧
    snapshotTrace.count .printOutput = 1 ∧
    snapshotTrace.length = 10 ∧
    (∀ j, j < snapshotTrace.length →
      (snapshotTrace.get? j = some .refreshDynamic ∨
        snapshotTrace.get? j = some .refreshProcesses) →
      j < 8) := by
  decide

theorem runLoop_count_bound (I : Nat) (sleeps : List ℚ) : ∀ st : LoopState,
    0 ≤ st.time_slept → (∀ x ∈ sleeps, 0 ≤ x) →
    ((runLoop I st sleeps).2 : ℚ) * I ≤ st.time_slept + sleeps.sum := by
  induction sleeps with
  | nil =>
    intro st hts _
    simp only [runLoop, List.sum_nil, Nat.cast_zero, zero_mul, add_zero]
    exact hts
  | cons s rest ih =>
    intro st hts hnn
    have hs : 0 ≤ s := hnn s (by simp)
    have hrest : ∀ x ∈ rest, 0 ≤ x := fun x hx => hnn x (by simp [hx])
    simp only [runLoop, List.sum_cons]
    by_cases hge : st.time_slept ≥ (I : ℚ)
    · simp only [loopStep, hge, if_pos]
      have hih := ih { time_slept := 0 + s, timeoutMs := I } (by simpa using hs) hrest
      simp only at hih
      push_cast
      have hIts : (I : ℚ) ≤ st.time_slept := hge
      linarith
    · simp only [loopStep, hge, if_neg, not_false_iff]
      have hih := ih { time_slept := st.time_slept + s, timeoutMs := I - ⌊st.time_slept⌋ }
        (by positivity) hrest
      simp only at hih
      push_cast
      linarith

/-- C9: a sampling pass happens in an iteration exactly when the accumulated
slept time has reached the update interval; a sampling iteration resets the
budget to zero (so the budget afterwards is just the new wait) and restores
the full-interval timeout; a non-sampling iteration only reduces the next
input-wait timeout to the remaining budget; and over any run the number of
sampling passes `n` satisfies `n * interval ≤ initial budget + total slept
time`, so sampling never happens more often than once per interval however
often the loop wakes. -/
theorem main_loop_pacing (I : Nat) (st : LoopState) (s : ℚ) (sleeps : List ℚ)
    (hts : 0 ≤ st.time_slept) (hnn : ∀ x ∈ sleeps, 0 ≤ x) :
    ((loopStep I st s).sampled = true ↔ st.time_slept ≥ (I : ℚ)) ∧
    ((loopStep I st s).sampled = true →
      (loopStep I st s).state.time_slept = s ∧
      (loopStep I st s).state.timeoutMs = I) ∧
    ((loopStep I st s).sampled = false →
      (loopStep I st s).state.timeoutMs = (I : ℤ) - ⌊st.time_slept⌋ ∧
      (loopStep I st s).state.time_slept = st.time_slept + s) ∧
    ((runLoop I st sleeps).2 : ℚ) * I ≤ st.time_slept + sleeps.sum := by
  refine ⟨?_, ?_, ?_, runLoop_count_bound I sleeps st hts hnn⟩
  · unfold loopStep
    by_cases hge : st.time_slept ≥ (I : ℚ) <;> simp [hge]
  · intro hsam
    unfold loopStep at hsam ⊢
    by_cases hge : st.time_slept ≥ (I : ℚ)
    · simp [hge]
    · simp [hge] at hsam
  · intro hsam
    unfold loopStep at hsam ⊢
    by_cases hge : st.time_slept ≥ (I : ℚ)
    · simp [hge] at hsam
    · simp [hge]

/-- C9 witness: one concrete run at a 100 ms interval. -/
theorem main_loop_pacing_witness :
    ((loopStep 100 (initLoopState 100) 5).sampled = true ↔
      (initLoopState 100).time_slept ≥ ((100 : Nat) : ℚ)) ∧
    ((loopStep 100 (initLoopState 100) 5).sampled = true →
      (loopStep 100 (initLoopState 100) 5).state.time_slept = 5 ∧
      (loopStep 100 (initLoopState 100) 5).state.timeoutMs = 100) ∧
    ((loopStep 100 (initLoopState 100) 5).sampled = false →
      (loopStep 100 (initLoopState 100) 5).state.timeoutMs
        = ((100 : Nat) : ℤ) - ⌊(initLoopState 100).time_slept⌋ ∧
      (loopStep 100 (initLoopState 100) 5).state.time_slept
        = (initLoopState 100).time_slept + 5) ∧
    ((runLoop 100 (initLoopState 100) [50, 60, 70]).2 : ℚ) * 100
      ≤ (initLoopState 100).time_slept + ([50, 60, 70] : List ℚ).sum :=
  main_loop_pacing 100 (initLoopState 100) 5 [50, 60, 70]
    (by norm_num [initLoopState])
    (by intro x hx; simp at hx; rcases hx with h | h | h <;> simp [h])

/-! Supporting lemmas about the parser. -/

theorem findClient_some_key (c : Cache) (k : UniqueId) (e : CacheEntry)
    (h : findClient c k = some e) : e.client_id = k := by
  unfold findClient at h
  have hp := List.find?_some h
  exact of_decide_eq_true hp

theorem findClient_addClient_isSome (c : Cache) (e : CacheEntry) (k : UniqueId)
    (h : e.client_id = k) : (findClient (addClient c e) k).isSome = true := by
  unfold findClient addClient
  induction c with
  | nil => simp [List.find?, h]
  | cons a c ih =>
    by_cases ha : a.client_id = k
    · simp [List.find?, ha]
    · simpa [List.find?, ha] using ih

theorem countClient_addClient (c : Cache) (e : CacheEntry) (k : UniqueId) :
    countClient (addClient c e) k
      = countClient c k + (if e.client_id = k then 1 else 0) := by
  unfold countClient addClient
  rw [List.filter_append, List.length_append]
  congr 1
  by_cases he : e.client_id = k <;> simp [List.filter, he]

theorem parse_ok_iff (g : GpuState) (rec : List KV) (p : GpuProcess) :
    (parse_drm_fdinfo_intel_xe g rec p).ok = true ↔
      ((parseLines g.pdev (initState p) rec).1 = true ∧
       (parseLines g.pdev (initState p) rec).2.client_id_set = true) := by
  unfold parse_drm_fdinfo_intel_xe
  rcases hres : parseLines g.pdev (initState p) rec with ⟨b, st⟩
  cases b
  · simp
  · cases hcid : st.client_id_set
    · simp [hcid]
    · cases hf : findClient g.lastCache ⟨st.cid, p.pid, g.pdev⟩ <;> simp [hcid, hf]

/-- C5 (amended): when the parser reports failure for a record — device
identity mismatch ("not this device") or no client-id key seen ("not
parseable") — no cache entry is created or updated for it: the device state,
including both cache generations, is returned untouched.  The caller-supplied
process record, however, is not guaranteed unchanged (see the counterexample:
the cycles bookkeeping field, and memory-key values seen before the failure
point, are already written into it). -/
theorem parse_fail_state (g : GpuState) (rec : List KV) (p : GpuProcess)
    (h : (parse_drm_fdinfo_intel_xe g rec p).ok = false) :
    (parse_drm_fdinfo_intel_xe g rec p).gstate = g := by
  unfold parse_drm_fdinfo_intel_xe at h ⊢
  rcases hres : parseLines g.pdev (initState p) rec with ⟨b, st⟩
  rw [hres] at h
  cases b
  · simp
  · cases hcid : st.client_id_set
    · simp [hcid]
    · cases hf : findClient g.lastCache ⟨st.cid, p.pid, g.pdev⟩ <;>
        simp [hcid, hf] at h

theorem parse_hit_eq (g : GpuState) (rec : List KV) (p : GpuProcess)
    (st : ParseState) (ce : CacheEntry)
    (hloop : parseLines g.pdev (initState p) rec = (true, st))
    (hcid : st.client_id_set = true)
    (hfind : findClient g.lastCache ⟨st.cid, p.pid, g.pdev⟩ = some ce) :
    parse_drm_fdinfo_intel_xe g rec p =
      { ok := true,
        process := applyDeltas ce st.gpu_cycles st.total_cycles
          { st.process with
              gpu_cycles := OptField.setv st.gpu_cycles.wrapSum,
              ptype := Nat.lor
                (if st.gpu_cycles.rcs ≠ 0 then gpu_process_graphical else 0)
                (if st.gpu_cycles.ccs ≠ 0 then gpu_process_compute else 0) },
        gstate := { g with
          lastCache := removeClient g.lastCache ⟨st.cid, p.pid, g.pdev⟩,
          currentCache := addClient g.currentCache
            ⟨ce.client_id, st.gpu_cycles, st.total_cycles⟩ },
        dupDetected := (findClient g.currentCache ce.client_id).isSome } := by
  unfold parse_drm_fdinfo_intel_xe
  rw [hloop]
  simp [hcid, hfind]

theorem parse_fresh_eq (g : GpuState) (rec : List KV) (p : GpuProcess)
    (st : ParseState)
    (hloop : parseLines g.pdev (initState p) rec = (true, st))
    (hcid : st.client_id_set = true)
    (hfind : findClient g.lastCache ⟨st.cid, p.pid, g.pdev⟩ = none) :
    parse_drm_fdinfo_intel_xe g rec p =
      { ok := true,
        process :=
          { st.process with
              gpu_cycles := OptField.setv st.gpu_cycles.wrapSum,
              ptype := Nat.lor
                (if st.gpu_cycles.rcs ≠ 0 then gpu_process_graphical else 0)
                (if st.gpu_cycles.ccs ≠ 0 then gpu_process_compute else 0) },
        gstate := { g with
          currentCache := addClient g.currentCache
            ⟨⟨st.cid, p.pid, g.pdev⟩, st.gpu_cycles, st.total_cycles⟩ },
        dupDetected := (findClient g.currentCache ⟨st.cid, p.pid, g.pdev⟩).isSome } := by
  unfold parse_drm_fdinfo_intel_xe
  rw [hloop]
  simp [hcid, hfind]

theorem parseLine_core_eq (pdev : String) (l : KV) (st₁ st₂ : ParseState)
    (h : st₁.core = st₂.core) :
    Option.map ParseState.core (parseLine pdev st₁ l)
      = Option.map ParseState.core (parseLine pdev st₂ l) := by
  have h1 : st₁.client_id_set = st₂.client_id_set := congrArg Prod.fst h
  have h2 : st₁.cid = st₂.cid := congrArg (fun x => x.2.1) h
  have h3 : st₁.gpu_cycles = st₂.gpu_cycles := congrArg (fun x => x.2.2.1) h
  have h4 : st₁.total_cycles = st₂.total_cycles := congrArg (fun x => x.2.2.2) h
  unfold parseLine
  cases k1 : (l.key == "drm-pdev")
  · cases k2 : (l.key == "drm-client-id")
    · cases k3 : (l.key == "drm-total-vram0") <;>
        simp [k1, k2, k3, ParseState.core, h1, h2, h3, h4]
    · cases hse : strtoulEnd l.val <;>
        simp [k1, k2, hse, ParseState.core, h1, h2, h3, h4]
  · cases k1b : (l.val == pdev) <;>
      simp [k1, k1b, ParseState.core, h1, h2, h3, h4]

theorem parseLines_core_eq (pdev : String) (ls : List KV) : ∀ st₁ st₂ : ParseState,
    st₁.core = st₂.core →
    (parseLines pdev st₁ ls).1 = (parseLines pdev st₂ ls).1 ∧
    ((parseLines pdev st₁ ls).2).core = ((parseLines pdev st₂ ls).2).core := by
  induction ls with
  | nil => intro st₁ st₂ h; exact ⟨rfl, h⟩
  | cons l ls ih =>
    intro st₁ st₂ h
    have hmap := parseLine_core_eq pdev l st₁ st₂ h
    cases hl1 : parseLine pdev st₁ l <;> cases hl2 : parseLine pdev st₂ l <;>
      rw [hl1, hl2] at hmap
    · simp [parseLines, hl1, hl2, h]
    · simp at hmap
    · simp at hmap
    · simp only [parseLines, hl1, hl2]
      exact ih _ _ (by simpa using hmap)

theorem parse_ok_shape (g : GpuState) (rec : List KV) (p : GpuProcess)
    (hok : (parse_drm_fdinfo_intel_xe g rec p).ok = true) :
    (parse_drm_fdinfo_intel_xe g rec p).dupDetected
        = (findClient g.currentCache (recordKey g rec p)).isSome ∧
    ∃ e : CacheEntry, e.client_id = recordKey g rec p ∧
      (parse_drm_fdinfo_intel_xe g rec p).gstate.currentCache
        = addClient g.currentCache e ∧
      (parse_drm_fdinfo_intel_xe g rec p).gstate.pdev = g.pdev := by
  have hiff := (parse_ok_iff g rec p).mp hok
  rcases hres : parseLines g.pdev (initState p) rec with ⟨b, st⟩
  rw [hres] at hiff
  obtain ⟨hb, hcid⟩ := hiff
  simp only at hb hcid
  subst hb
  have hrk : recordKey g rec p = ⟨st.cid, p.pid, g.pdev⟩ := by
    unfold recordKey
    rw [hres]
  rw [hrk]
  cases hf : findClient g.lastCache ⟨st.cid, p.pid, g.pdev⟩
  · rw [parse_fresh_eq g rec p st hres hcid hf]
    exact ⟨rfl, ⟨⟨st.cid, p.pid, g.pdev⟩, st.gpu_cycles, st.total_cycles⟩, rfl, rfl, rfl⟩
  · case some ce =>
    have hkey := findClient_some_key _ _ _ hf
    rw [parse_hit_eq g rec p st ce hres hcid hf]
    exact ⟨by rw [hkey], ⟨ce.client_id, st.gpu_cycles, st.total_cycles⟩,
      hkey, rfl, rfl⟩

/-- C2: a successful parse looks the record's key up in the current generation
before inserting (the `NDEBUG`-guarded assertion's condition is exactly that
presence check); the insertion adds exactly one entry under the key; and
processing a record with the same (client id, pid, device) key a second time
within the same cycle succeeds but reports the duplicate, so double-processing
is detected rather than silently merged. -/
theorem duplicate_client_detection (g : GpuState) (rec : List KV)
    (p p₂ : GpuProcess)
    (hok : (parse_drm_fdinfo_intel_xe g rec p).ok = true)
    (hpid : p₂.pid = p.pid) :
    ((parse_drm_fdinfo_intel_xe g rec p).dupDetected
        = (findClient g.currentCache (recordKey g rec p)).isSome) ∧
    (countClient (parse_drm_fdinfo_intel_xe g rec p).gstate.currentCache
        (recordKey g rec p)
      = countClient g.currentCache (recordKey g rec p) + 1) ∧
    ((parse_drm_fdinfo_intel_xe
        (parse_drm_fdinfo_intel_xe g rec p).gstate rec p₂).ok = true) ∧
    ((parse_drm_fdinfo_intel_xe
        (parse_drm_fdinfo_intel_xe g rec p).gstate rec p₂).dupDetected = true) := by
  obtain ⟨hdup, e, hek, hcur, hpdev⟩ := parse_ok_shape g rec p hok
  have hco := parseLines_core_eq g.pdev rec (initState p₂) (initState p) rfl
  have h1 := (parse_ok_iff g rec p).mp hok
  have hcid2 : (parseLines g.pdev (initState p₂) rec).2.client_id_set
      = (parseLines g.pdev (initState p) rec).2.client_id_set :=
    congrArg Prod.fst hco.2
  have hcidv : (parseLines g.pdev (initState p₂) rec).2.cid
      = (parseLines g.pdev (initState p) rec).2.cid :=
    congrArg (fun x => x.2.1) hco.2
  have hok2 : (parse_drm_fdinfo_intel_xe
      (parse_drm_fdinfo_intel_xe g rec p).gstate rec p₂).ok = true := by
    rw [parse_ok_iff, hpdev]
    exact ⟨by rw [hco.1]; exact h1.1, by rw [hcid2]; exact h1.2⟩
  obtain ⟨hdup2, e₂, hek₂, hcur₂, hpdev₂⟩ := parse_ok_shape _ rec p₂ hok2
  have hrk : recordKey (parse_drm_fdinfo_intel_xe g rec p).gstate rec p₂
      = recordKey g rec p := by
    unfold recordKey
    rw [hpdev, hcidv, hpid]
  refine ⟨hdup, ?_, hok2, ?_⟩
  · rw [hcur, countClient_addClient, hek]
    simp
  · rw [hdup2, hrk, hcur]
    exact findClient_addClient_isSome g.currentCache e (recordKey g rec p) hek

/-- C2 witness: the first record of a cycle inserts fresh; re-processing the
same record within the cycle flags the duplicate. -/
theorem duplicate_client_detection_witness :
    (parse_drm_fdinfo_intel_xe
      (parse_drm_fdinfo_intel_xe freshGpu sampleRec1 blankProc).gstate
      sampleRec1 blankProc).dupDetected = true :=
  (duplicate_client_detection freshGpu sampleRec1 blankProc blankProc
    (by decide) rfl).2.2.2

/-- C5 counterexample: a record with a memory key but no client id is rejected
(`ok = false`), yet the caller-supplied process record has been modified: its
memory-usage field has accumulated 4 KiB = 4096 bytes and its cycles
bookkeeping field has been set, contradicting "the caller-supplied process
record is left unchanged". -/
theorem parser_failure_modifies_record :
    (parse_drm_fdinfo_intel_xe freshGpu [⟨"drm-total-vram0", "4"⟩] blankProc).ok
      = false ∧
    ((parse_drm_fdinfo_intel_xe freshGpu
        [⟨"drm-total-vram0", "4"⟩] blankProc).process).gpu_memory_usage
      = OptField.setv 4096 ∧
    ((parse_drm_fdinfo_intel_xe freshGpu
        [⟨"drm-total-vram0", "4"⟩] blankProc).process).gpu_cycles
      = OptField.setv 0 ∧
    ¬ ((parse_drm_fdinfo_intel_xe freshGpu [⟨"drm-total-vram0", "4"⟩] blankProc).process
      = blankProc) := by
  decide

/-- C5 (amended) witness: the record with only a memory key fails and leaves
the device state — both cache generations — untouched. -/
theorem parse_fail_state_witness :
    (parse_drm_fdinfo_intel_xe freshGpu [⟨"drm-total-vram0", "4"⟩] blankProc).gstate
      = freshGpu :=
  parse_fail_state freshGpu [⟨"drm-total-vram0", "4"⟩] blankProc (by decide)

theorem addUsage_valid_true (g t cg ct : Nat) (f : OptField) (h : f.valid = true) :
    (addUsage g t cg ct f).valid = true := by
  simp only [addUsage]
  split
  · rfl
  · exact h

theorem addUsage_val (g t cg ct : Nat) (f : OptField)
    (hg : cg ≤ g) (ht : ct ≤ t) (hgM : g < M64) (htM : t < M64)
    (hd : (g - cg) * 100 < M64) (hdt : g - cg ≤ t - ct)
    (hf : f.val + 100 < M32) :
    (addUsage g t cg ct f).val
      = f.val + (if 0 < t - ct then (g - cg) * 100 / (t - ct) else 0) := by
  simp only [addUsage, usageDelta]
  have hcg : cg % M64 = cg := Nat.mod_eq_of_lt (lt_of_le_of_lt hg hgM)
  have hct2 : ct % M64 = ct := Nat.mod_eq_of_lt (lt_of_le_of_lt ht htM)
  rw [hcg, hct2]
  have hdg : (g + M64 - cg) % M64 = g - cg := by
    have hx : g + M64 - cg = M64 + (g - cg) := by omega
    rw [hx, Nat.add_mod_left]
    exact Nat.mod_eq_of_lt (by omega)
  have hdt2 : (t + M64 - ct) % M64 = t - ct := by
    have hx : t + M64 - ct = M64 + (t - ct) := by omega
    rw [hx, Nat.add_mod_left]
    exact Nat.mod_eq_of_lt (by omega)
  rw [hdg, hdt2]
  by_cases hz : 0 < t - ct
  · have hq : (g - cg) * 100 / (t - ct) ≤ 100 := by
      calc (g - cg) * 100 / (t - ct)
          ≤ (t - ct) * 100 / (t - ct) :=
            Nat.div_le_div_right (Nat.mul_le_mul_right 100 hdt)
        _ = 100 := Nat.mul_div_cancel_left 100 hz
    rw [if_pos hz, if_pos hz, Nat.mod_eq_of_lt hd,
      Nat.mod_eq_of_lt (lt_of_le_of_lt hq (by norm_num [M32])),
      Nat.mod_eq_of_lt (by omega : f.val + (g - cg) * 100 / (t - ct) < M32)]
    rfl
  · rw [if_neg hz, if_neg hz]
    omega

theorem applyDeltas_mem_eq (ce : CacheEntry) (g t : IntelCycles) (p : GpuProcess) :
    (applyDeltas ce g t p).gpu_memory_usage = p.gpu_memory_usage := rfl

theorem applyDeltas_valid3 (ce : CacheEntry) (g t : IntelCycles) (p : GpuProcess) :
    (applyDeltas ce g t p).gpu_usage.valid = true ∧
    (applyDeltas ce g t p).decode_usage.valid = true ∧
    (applyDeltas ce g t p).encode_usage.valid = true := by
  refine ⟨?_, ?_, ?_⟩
  · show (addUsage g.bcs t.bcs ce.gpu_cycles.bcs ce.total_cycles.bcs
      (addUsage g.vecs t.vecs ce.gpu_cycles.vecs ce.total_cycles.vecs
      (addUsage g.vcs t.vcs ce.gpu_cycles.vcs ce.total_cycles.vcs
      (addUsage g.ccs t.ccs ce.gpu_cycles.ccs ce.total_cycles.ccs
      (addUsage g.rcs t.rcs ce.gpu_cycles.rcs ce.total_cycles.rcs
      (OptField.setv 0)))))).valid = true
    apply addUsage_valid_true
    apply addUsage_valid_true
    apply addUsage_valid_true
    apply addUsage_valid_true
    apply addUsage_valid_true
    rfl
  · show (addUsage g.vcs t.vcs ce.gpu_cycles.vcs ce.total_cycles.vcs
      (OptField.setv 0)).valid = true
    apply addUsage_valid_true
    rfl
  · show (addUsage g.vecs t.vecs ce.gpu_cycles.vecs ce.total_cycles.vecs
      (OptField.setv 0)).valid = true
    apply addUsage_valid_true
    rfl

theorem enginePct_le_100 (ce : CacheEntry) (g t : IntelCycles) (e : Engine)
    (h6 : g.get e - ce.gpu_cycles.get e ≤ t.get e - ce.total_cycles.get e) :
    enginePct ce g t e ≤ 100 := by
  simp only [enginePct]
  by_cases hz : 0 < t.get e - ce.total_cycles.get e
  · rw [if_pos hz]
    calc (g.get e - ce.gpu_cycles.get e) * 100 / (t.get e - ce.total_cycles.get e)
        ≤ (t.get e - ce.total_cycles.get e) * 100 / (t.get e - ce.total_cycles.get e) :=
          Nat.div_le_div_right (Nat.mul_le_mul_right 100 h6)
      _ = 100 := Nat.mul_div_cancel_left 100 hz
  · rw [if_neg hz]
    omega

theorem applyDeltas_vals (ce : CacheEntry) (g t : IntelCycles) (p : GpuProcess)
    (h1 : ∀ e, ce.gpu_cycles.get e ≤ g.get e)
    (h2 : ∀ e, ce.total_cycles.get e ≤ t.get e)
    (h3 : ∀ e, g.get e < M64)
    (h4 : ∀ e, t.get e < M64)
    (h5 : ∀ e, (g.get e - ce.gpu_cycles.get e) * 100 < M64)
    (h6 : ∀ e, g.get e - ce.gpu_cycles.get e ≤ t.get e - ce.total_cycles.get e) :
    (applyDeltas ce g t p).gpu_usage.val
      = enginePct ce g t .rcs + enginePct ce g t .ccs + enginePct ce g t .vcs
        + enginePct ce g t .vecs + enginePct ce g t .bcs ∧
    (applyDeltas ce g t p).decode_usage.val = enginePct ce g t .vcs ∧
    (applyDeltas ce g t p).encode_usage.val = enginePct ce g t .vecs := by
  have hM : (500 : Nat) + 100 < M32 := by norm_num [M32]
  have hbr := enginePct_le_100 ce g t .rcs (h6 .rcs)
  have hbc := enginePct_le_100 ce g t .ccs (h6 .ccs)
  have hbv := enginePct_le_100 ce g t .vcs (h6 .vcs)
  have hbve := enginePct_le_100 ce g t .vecs (h6 .vecs)
  have hbb := enginePct_le_100 ce g t .bcs (h6 .bcs)
  have hrcs : ∀ f : OptField, f.val + 100 < M32 →
      (addUsage g.rcs t.rcs ce.gpu_cycles.rcs ce.total_cycles.rcs f).val
        = f.val + enginePct ce g t .rcs := by
    intro f hf
    rw [addUsage_val g.rcs t.rcs ce.gpu_cycles.rcs ce.total_cycles.rcs f
      (h1 .rcs) (h2 .rcs) (h3 .rcs) (h4 .rcs) (h5 .rcs) (h6 .rcs) hf]
    rfl
  have hccs : ∀ f : OptField, f.val + 100 < M32 →
      (addUsage g.ccs t.ccs ce.gpu_cycles.ccs ce.total_cycles.ccs f).val
        = f.val + enginePct ce g t .ccs := by
    intro f hf
    rw [addUsage_val g.ccs t.ccs ce.gpu_cycles.ccs ce.total_cycles.ccs f
      (h1 .ccs) (h2 .ccs) (h3 .ccs) (h4 .ccs) (h5 .ccs) (h6 .ccs) hf]
    rfl
  have hvcs : ∀ f : OptField, f.val + 100 < M32 →
      (addUsage g.vcs t.vcs ce.gpu_cycles.vcs ce.total_cycles.vcs f).val
        = f.val + enginePct ce g t .vcs := by
    intro f hf
    rw [addUsage_val g.vcs t.vcs ce.gpu_cycles.vcs ce.total_cycles.vcs f
      (h1 .vcs) (h2 .vcs) (h3 .vcs) (h4 .vcs) (h5 .vcs) (h6 .vcs) hf]
    rfl
  have hvecs : ∀ f : OptField, f.val + 100 < M32 →
      (addUsage g.vecs t.vecs ce.gpu_cycles.vecs ce.total_cycles.vecs f).val
        = f.val + enginePct ce g t .vecs := by
    intro f hf
    rw [addUsage_val g.vecs t.vecs ce.gpu_cycles.vecs ce.total_cycles.vecs f
      (h1 .vecs) (h2 .vecs) (h3 .vecs) (h4 .vecs) (h5 .vecs) (h6 .vecs) hf]
    rfl
  have hbcs : ∀ f : OptField, f.val + 100 < M32 →
      (addUsage g.bcs t.bcs ce.gpu_cycles.bcs ce.total_cycles.bcs f).val
        = f.val + enginePct ce g t .bcs := by
    intro f hf
    rw [addUsage_val g.bcs t.bcs ce.gpu_cycles.bcs ce.total_cycles.bcs f
      (h1 .bcs) (h2 .bcs) (h3 .bcs) (h4 .bcs) (h5 .bcs) (h6 .bcs) hf]
    rfl
  have e1 : (addUsage g.rcs t.rcs ce.gpu_cycles.rcs ce.total_cycles.rcs
      (OptField.setv 0)).val = 0 + enginePct ce g t .rcs :=
    hrcs (OptField.setv 0) (by norm_num [OptField.setv, M32])
  have e2 : (addUsage g.ccs t.ccs ce.gpu_cycles.ccs ce.total_cycles.ccs
      (addUsage g.rcs t.rcs ce.gpu_cycles.rcs ce.total_cycles.rcs
        (OptField.setv 0))).val
      = (addUsage g.rcs t.rcs ce.gpu_cycles.rcs ce.total_cycles.rcs
          (OptField.setv 0)).val + enginePct ce g t .ccs :=
    hccs _ (by rw [e1]; omega)
  have e3 : (addUsage g.vcs t.vcs ce.gpu_cycles.vcs ce.total_cycles.vcs
      (addUsage g.ccs t.ccs ce.gpu_cycles.ccs ce.total_cycles.ccs
      (addUsage g.rcs t.rcs ce.gpu_cycles.rcs ce.total_cycles.rcs
        (OptField.setv 0)))).val
      = (addUsage g.ccs t.ccs ce.gpu_cycles.ccs ce.total_cycles.ccs
      (addUsage g.rcs t.rcs ce.gpu_cycles.rcs ce.total_cycles.rcs
        (OptField.setv 0))).val + enginePct ce g t .vcs :=
    hvcs _ (by rw [e2, e1]; omega)
  have e4 : (addUsage g.vecs t.vecs ce.gpu_cycles.vecs ce.total_cycles.vecs
      (addUsage g.vcs t.vcs ce.gpu_cycles.vcs ce.total_cycles.vcs
      (addUsage g.ccs t.ccs ce.gpu_cycles.ccs ce.total_cycles.ccs
      (addUsage g.rcs t.rcs ce.gpu_cycles.rcs ce.total_cycles.rcs
        (OptField.setv 0))))).val
      = (addUsage g.vcs t.vcs ce.gpu_cycles.vcs ce.total_cycles.vcs
      (addUsage g.ccs t.ccs ce.gpu_cycles.ccs ce.total_cycles.ccs
      (addUsage g.rcs t.rcs ce.gpu_cycles.rcs ce.total_cycles.rcs
        (OptField.setv 0)))).val + enginePct ce g t .vecs :=
    hvecs _ (by rw [e3, e2, e1]; omega)
  have e5 : (addUsage g.bcs t.bcs ce.gpu_cycles.bcs ce.total_cycles.bcs
      (addUsage g.vecs t.vecs ce.gpu_cycles.vecs ce.total_cycles.vecs
      (addUsage g.vcs t.vcs ce.gpu_cycles.vcs ce.total_cycles.vcs
      (addUsage g.ccs t.ccs ce.gpu_cycles.ccs ce.total_cycles.ccs
      (addUsage g.rcs t.rcs ce.gpu_cycles.rcs ce.total_cycles.rcs
        (OptField.setv 0)))))).val
      = (addUsage g.vecs t.vecs ce.gpu_cycles.vecs ce.total_cycles.vecs
      (addUsage g.vcs t.vcs ce.gpu_cycles.vcs ce.total_cycles.vcs
      (addUsage g.ccs t.ccs ce.gpu_cycles.ccs ce.total_cycles.ccs
      (addUsage g.rcs t.rcs ce.gpu_cycles.rcs ce.total_cycles.rcs
        (OptField.setv 0))))).val + enginePct ce g t .bcs :=
    hbcs _ (by rw [e4, e3, e2, e1]; omega)
  refine ⟨?_, ?_, ?_⟩
  · show (addUsage g.bcs t.bcs ce.gpu_cycles.bcs ce.total_cycles.bcs
      (addUsage g.vecs t.vecs ce.gpu_cycles.vecs ce.total_cycles.vecs
      (addUsage g.vcs t.vcs ce.gpu_cycles.vcs ce.total_cycles.vcs
      (addUsage g.ccs t.ccs ce.gpu_cycles.ccs ce.total_cycles.ccs
      (addUsage g.rcs t.rcs ce.gpu_cycles.rcs ce.total_cycles.rcs
      (OptField.setv 0)))))).val = _
    rw [e5, e4, e3, e2, e1]
    omega
  · show (addUsage g.vcs t.vcs ce.gpu_cycles.vcs ce.total_cycles.vcs
      (OptField.setv 0)).val = _
    rw [hvcs (OptField.setv 0) (by norm_num [OptField.setv, M32])]
    simp [OptField.setv]
  · show (addUsage g.vecs t.vecs ce.gpu_cycles.vecs ce.total_cycles.vecs
      (OptField.setv 0)).val = _
    rw [hvecs (OptField.setv 0) (by norm_num [OptField.setv, M32])]
    simp [OptField.setv]

/-- C1: for a record whose (client id, pid, device) key hits the previous
generation, the parser computes per-engine busy/total deltas against the
cached sample and — whenever `total_delta > 0` — adds
`busy_delta * 100 / total_delta` (integer, truncating) into the target
buckets: Render and Compute and Copy into the overall bucket, VideoDecode
into the decode and overall buckets, VideoEncode into the encode and overall
buckets; an engine with `total_delta = 0` contributes nothing (its guarded
branch performs no division).  Hypotheses: the loop parsed the record with a
client id, the key hits the cache, counters are monotone 64-bit values and
`busy_delta * 100` does not overflow, and busy advances at most as fast as
total. -/
theorem fdinfo_engine_percentages (g : GpuState) (rec : List KV) (p : GpuProcess)
    (st : ParseState) (ce : CacheEntry)
    (hloop : parseLines g.pdev (initState p) rec = (true, st))
    (hcid : st.client_id_set = true)
    (hfind : findClient g.lastCache ⟨st.cid, p.pid, g.pdev⟩ = some ce)
    (h1 : ∀ e, ce.gpu_cycles.get e ≤ st.gpu_cycles.get e)
    (h2 : ∀ e, ce.total_cycles.get e ≤ st.total_cycles.get e)
    (h3 : ∀ e, st.gpu_cycles.get e < M64)
    (h4 : ∀ e, st.total_cycles.get e < M64)
    (h5 : ∀ e, (st.gpu_cycles.get e - ce.gpu_cycles.get e) * 100 < M64)
    (h6 : ∀ e, st.gpu_cycles.get e - ce.gpu_cycles.get e
            ≤ st.total_cycles.get e - ce.total_cycles.get e) :
    (parse_drm_fdinfo_intel_xe g rec p).process.gpu_usage.val
      = enginePct ce st.gpu_cycles st.total_cycles .rcs
        + enginePct ce st.gpu_cycles st.total_cycles .ccs
        + enginePct ce st.gpu_cycles st.total_cycles .vcs
        + enginePct ce st.gpu_cycles st.total_cycles .vecs
        + enginePct ce st.gpu_cycles st.total_cycles .bcs ∧
    (parse_drm_fdinfo_intel_xe g rec p).process.decode_usage.val
      = enginePct ce st.gpu_cycles st.total_cycles .vcs ∧
    (parse_drm_fdinfo_intel_xe g rec p).process.encode_usage.val
      = enginePct ce st.gpu_cycles st.total_cycles .vecs ∧
    (∀ e, st.total_cycles.get e - ce.total_cycles.get e = 0 →
      enginePct ce st.gpu_cycles st.total_cycles e = 0) := by
  rw [parse_hit_eq g rec p st ce hloop hcid hfind]
  refine ⟨(applyDeltas_vals ce st.gpu_cycles st.total_cycles _ h1 h2 h3 h4 h5 h6).1,
          (applyDeltas_vals ce st.gpu_cycles st.total_cycles _ h1 h2 h3 h4 h5 h6).2.1,
          (applyDeltas_vals ce st.gpu_cycles st.total_cycles _ h1 h2 h3 h4 h5 h6).2.2,
          ?_⟩
  intro e he
  simp [enginePct, he]

/-- C1 witness: the spec §8 scenario — render counters 1000/10000 then
1500/10500 yield a 100% overall contribution. -/
theorem fdinfo_engine_percentages_witness :
    (parse_drm_fdinfo_intel_xe swappedGpu sampleRec2 blankProc).process.gpu_usage.val
      = enginePct wit1Ce wit1St.gpu_cycles wit1St.total_cycles .rcs
        + enginePct wit1Ce wit1St.gpu_cycles wit1St.total_cycles .ccs
        + enginePct wit1Ce wit1St.gpu_cycles wit1St.total_cycles .vcs
        + enginePct wit1Ce wit1St.gpu_cycles wit1St.total_cycles .vecs
        + enginePct wit1Ce wit1St.gpu_cycles wit1St.total_cycles .bcs :=
  (fdinfo_engine_percentages swappedGpu sampleRec2 blankProc wit1St wit1Ce
    (by decide) (by decide) (by decide) (by decide) (by decide) (by decide)
    (by decide) (by decide) (by decide)).1

/-- C10: for a record whose key hits the previous generation, the parser
first forces `gpu_usage`, `decode_usage` and `encode_usage` to valid zero, so
after the call all three fields are populated — even when every engine's
`total_delta` is zero — and never left unset. -/
theorem fdinfo_cached_fields_populated (g : GpuState) (rec : List KV)
    (p : GpuProcess) (st : ParseState) (ce : CacheEntry)
    (hloop : parseLines g.pdev (initState p) rec = (true, st))
    (hcid : st.client_id_set = true)
    (hfind : findClient g.lastCache ⟨st.cid, p.pid, g.pdev⟩ = some ce) :
    (parse_drm_fdinfo_intel_xe g rec p).process.gpu_usage.valid = true ∧
    (parse_drm_fdinfo_intel_xe g rec p).process.decode_usage.valid = true ∧
    (parse_drm_fdinfo_intel_xe g rec p).process.encode_usage.valid = true := by
  rw [parse_hit_eq g rec p st ce hloop hcid hfind]
  exact applyDeltas_valid3 ce st.gpu_cycles st.total_cycles _

/-- C10 witness: the same two-cycle scenario populates all three fields. -/
theorem fdinfo_cached_fields_populated_witness :
    (parse_drm_fdinfo_intel_xe swappedGpu sampleRec2 blankProc).process.gpu_usage.valid
      = true ∧
    (parse_drm_fdinfo_intel_xe swappedGpu sampleRec2 blankProc).process.decode_usage.valid
      = true ∧
    (parse_drm_fdinfo_intel_xe swappedGpu sampleRec2 blankProc).process.encode_usage.valid
      = true :=
  fdinfo_cached_fields_populated swappedGpu sampleRec2 blankProc wit1St wit1Ce
    (by decide) (by decide) (by decide)

theorem parseLine_mem (pdev : String) (st : ParseState) (l : KV) (st' : ParseState)
    (h : parseLine pdev st l = some st') :
    st'.process.gpu_memory_usage = memStep st.process.gpu_memory_usage l := by
  unfold parseLine at h
  cases k1 : (l.key == "drm-pdev")
  · simp only [k1, Bool.false_eq_true, if_false] at h
    cases k2 : (l.key == "drm-client-id")
    · simp only [k2, Bool.false_eq_true, if_false] at h
      cases k3 : (l.key == "drm-total-vram0")
      · simp only [k3, Bool.false_eq_true, if_false] at h
        simp only [Option.some.injEq] at h
        subst h
        simp [memStep, k3]
      · simp only [k3, if_true] at h
        simp only [Option.some.injEq] at h
        subst h
        simp only [memStep, k3, if_true]
        by_cases hv : st.process.gpu_memory_usage.valid <;> simp [hv]
    · have hkey : l.key = "drm-client-id" := by simpa using k2
      simp only [k2, if_true] at h
      cases hse : strtoulEnd l.val <;> rw [hse] at h <;>
        simp only [Option.some.injEq] at h <;> subst h <;>
        simp [memStep, hkey]
  · have hkey : l.key = "drm-pdev" := by simpa using k1
    simp only [k1, if_true] at h
    cases k1b : (l.val == pdev)
    · simp only [k1b, Bool.false_eq_true, if_false] at h
      exact absurd h (by simp)
    · simp only [k1b, if_true] at h
      simp only [Option.some.injEq] at h
      subst h
      simp [memStep, hkey]

theorem parseLines_mem (pdev : String) (ls : List KV) : ∀ st : ParseState,
    (parseLines pdev st ls).1 = true →
    ((parseLines pdev st ls).2).process.gpu_memory_usage
      = ls.foldl memStep st.process.gpu_memory_usage := by
  induction ls with
  | nil => intro st _; simp [parseLines]
  | cons l ls ih =>
    intro st hok
    cases hl : parseLine pdev st l
    · simp [parseLines, hl] at hok
    · case some st' =>
      simp only [parseLines, hl] at hok ⊢
      rw [List.foldl_cons, ih st' hok, parseLine_mem pdev st l st' hl]

theorem parse_ok_mem (g : GpuState) (rec : List KV) (p : GpuProcess)
    (hok : (parse_drm_fdinfo_intel_xe g rec p).ok = true) :
    (parse_drm_fdinfo_intel_xe g rec p).process.gpu_memory_usage
      = rec.foldl memStep p.gpu_memory_usage := by
  have hiff := (parse_ok_iff g rec p).mp hok
  rcases hres : parseLines g.pdev (initState p) rec with ⟨b, st⟩
  rw [hres] at hiff
  obtain ⟨hb, hcid⟩ := hiff
  simp only at hb hcid
  subst hb
  have hmem := parseLines_mem g.pdev rec (initState p) (by rw [hres])
  rw [hres] at hmem
  simp only [initState] at hmem
  cases hf : findClient g.lastCache ⟨st.cid, p.pid, g.pdev⟩
  · rw [parse_fresh_eq g rec p st hres hcid hf]
    exact hmem
  · case some ce =>
    rw [parse_hit_eq g rec p st ce hres hcid hf, applyDeltas_mem_eq]
    exact hmem

theorem parseMany_mem (recs : List (List KV)) : ∀ (g : GpuState) (p : GpuProcess),
    (parseMany g p recs).2.2 = true →
    (parseMany g p recs).2.1.gpu_memory_usage
      = recs.foldl (fun f r => r.foldl memStep f) p.gpu_memory_usage := by
  induction recs with
  | nil => intro g p _; simp [parseMany]
  | cons r rs ih =>
    intro g p hok
    simp only [parseMany] at hok ⊢
    rw [Bool.and_eq_true] at hok
    rw [List.foldl_cons, ih _ _ hok.2, parse_ok_mem g r p hok.1]

theorem memFold_valid (ls : List KV) : ∀ v : Nat, v + recMemBytes ls < M64 →
    ls.foldl memStep ⟨v, true⟩ = ⟨v + recMemBytes ls, true⟩ := by
  induction ls with
  | nil => intro v _; simp [recMemBytes]
  | cons l ls ih =>
    intro v h
    have hrm : recMemBytes (l :: ls)
        = (if l.key == "drm-total-vram0" then strtoulClamp l.val * 1024 else 0)
          + recMemBytes ls := by
      simp [recMemBytes]
    rw [hrm] at h
    simp only [List.foldl_cons]
    cases hk : (l.key == "drm-total-vram0")
    · have hms : memStep (⟨v, true⟩ : OptField) l = ⟨v, true⟩ := by
        simp [memStep, hk]
      rw [hms, hrm]
      simp only [hk, Bool.false_eq_true, if_false, zero_add] at h ⊢
      exact ih v h
    · simp only [hk, if_true] at h
      have hms : memStep (⟨v, true⟩ : OptField) l
          = ⟨v + strtoulClamp l.val * 1024, true⟩ := by
        simp only [memStep, hk, if_true, OptField.setv]
        rw [Nat.mod_eq_of_lt (by omega)]
      rw [hms, hrm]
      simp only [hk, if_true]
      rw [ih (v + strtoulClamp l.val * 1024) (by omega)]
      congr 1
      omega

theorem memFold_invalid (ls : List KV) : ∀ x : Nat, recMemBytes ls < M64 →
    ls.foldl memStep ⟨x, false⟩
      = if hasVramLine ls then (⟨recMemBytes ls, true⟩ : OptField)
        else ⟨x, false⟩ := by
  induction ls with
  | nil => intro x _; simp [hasVramLine, recMemBytes]
  | cons l ls ih =>
    intro x h
    have hrm : recMemBytes (l :: ls)
        = (if l.key == "drm-total-vram0" then strtoulClamp l.val * 1024 else 0)
          + recMemBytes ls := by
      simp [recMemBytes]
    rw [hrm] at h
    simp only [List.foldl_cons]
    cases hk : (l.key == "drm-total-vram0")
    · simp only [hk, Bool.false_eq_true, if_false, zero_add] at h
      have hms : memStep (⟨x, false⟩ : OptField) l = ⟨x, false⟩ := by
        simp [memStep, hk]
      have hh : hasVramLine (l :: ls) = hasVramLine ls := by
        simp [hasVramLine, hk]
      rw [hms, hh, hrm]
      simp only [hk, Bool.false_eq_true, if_false, zero_add]
      exact ih x h
    · simp only [hk, if_true] at h
      have hms : memStep (⟨x, false⟩ : OptField) l
          = ⟨strtoulClamp l.val * 1024, true⟩ := by
        simp only [memStep, hk, if_true, Bool.false_eq_true, if_false, OptField.setv]
        rw [Nat.mod_eq_of_lt (by omega)]
      have hh : hasVramLine (l :: ls) = true := by
        simp [hasVramLine, hk]
      rw [hms, hh, hrm]
      simp only [hk, if_true]
      rw [memFold_valid ls (strtoulClamp l.val * 1024) (by omega)]

theorem foldl_records_flatten (recs : List (List KV)) : ∀ f : OptField,
    recs.foldl (fun f r => r.foldl memStep f) f = recs.flatten.foldl memStep f := by
  induction recs with
  | nil => intro f; simp
  | cons r rs ih =>
    intro f
    simp only [List.foldl_cons, List.flatten_cons]
    rw [List.foldl_append]
    exact ih (r.foldl memStep f)

theorem recMemBytes_flatten (recs : List (List KV)) :
    recMemBytes recs.flatten = recsMemBytes recs := by
  induction recs with
  | nil => simp [recMemBytes, recsMemBytes]
  | cons r rs ih =>
    have h1 : recMemBytes ((r :: rs).flatten)
        = recMemBytes r + recMemBytes rs.flatten := by
      simp [recMemBytes, List.flatten_cons, List.map_append, List.sum_append]
    have h2 : recsMemBytes (r :: rs) = recMemBytes r + recsMemBytes rs := by
      simp [recsMemBytes]
    rw [h1, h2, ih]

theorem hasVramLine_flatten (recs : List (List KV)) :
    hasVramLine recs.flatten = recs.any hasVramLine := by
  induction recs with
  | nil => simp [hasVramLine]
  | cons r rs ih =>
    have h1 : hasVramLine ((r :: rs).flatten)
        = (hasVramLine r || hasVramLine rs.flatten) := by
      simp [hasVramLine, List.flatten_cons, List.any_append]
    have h2 : ((r :: rs).any hasVramLine) = (hasVramLine r || rs.any hasVramLine) := by
      simp
    rw [h1, h2, ih]

/-- C8: within one cycle, a process's reported GPU memory usage accumulates
additively across all of its successfully attributed fdinfo records: starting
from an unset field, after the records are processed the field holds the sum
over every memory-key line of its value times 1024 (KiB to bytes) — populated
exactly when at least one memory key was seen. -/
theorem perprocess_memory_sum (g : GpuState) (p : GpuProcess)
    (recs : List (List KV))
    (h0 : p.gpu_memory_usage.valid = false)
    (hok : (parseMany g p recs).2.2 = true)
    (hfit : recsMemBytes recs < M64) :
    (parseMany g p recs).2.1.gpu_memory_usage
      = if recs.any hasVramLine then OptField.setv (recsMemBytes recs)
        else p.gpu_memory_usage := by
  rw [parseMany_mem recs g p hok, foldl_records_flatten]
  have hp : p.gpu_memory_usage = ⟨p.gpu_memory_usage.val, false⟩ := by
    rw [← h0]
  rw [hp, memFold_invalid recs.flatten p.gpu_memory_usage.val
    (by rw [recMemBytes_flatten]; exact hfit)]
  rw [recMemBytes_flatten, hasVramLine_flatten]
  cases hany : recs.any hasVramLine
  · simp only [hany, Bool.false_eq_true, if_false]
  · simp only [hany, if_true]
    rfl

/-- C8 witness: two records with 4 KiB and 6 KiB memory keys accumulate to
10240 bytes. -/
theorem perprocess_memory_sum_witness :
    (parseMany freshGpu blankProc wit8Recs).2.1.gpu_memory_usage
      = if wit8Recs.any hasVramLine then OptField.setv (recsMemBytes wit8Recs)
        else blankProc.gpu_memory_usage :=
  perprocess_memory_sum freshGpu blankProc wit8Recs (by decide) (by decide)
    (by decide)

end NvtopXe
